import Mathlib

/-!
Shallow embedding of diarize_speakers.py (speaker-diarization CLI wrapper).

The script wraps an external pretrained pipeline.  We model the pipeline as an
abstract function supplied by the environment, and the script itself — argument
parsing, file-existence check, parameter truthiness, reshaping of the pipeline
tracks into segment records, JSON serialization (compact to stdout, indent=2 to
the optional output file), stderr messages and exit codes — faithfully from the
source.  Floating-point times are modelled as rationals carried through
unchanged; their JSON rendering is a fixed deterministic function used
identically by both serializations.
-/

namespace Diarize

/-- One track yielded by the pipeline iteration
`diarization.itertracks(yield_label=True)`: a time interval and a speaker
label.  The field `stop` models the `end` attribute (a Lean keyword). -/
structure Track where
  start : ℚ
  stop : ℚ
  speaker : String
deriving DecidableEq, Repr

/-- One segment record built by the loop body in `diarize_audio`
(lines 60–65): `{'start': float(turn.start), 'end': float(turn.end),
'speaker': speaker}`.  `stop` models the `end` key. -/
structure Segment where
  start : ℚ
  stop : ℚ
  speaker : String
deriving DecidableEq, Repr

/-- The loop body: one segment per track, fields copied through
(`float()` is the identity on our rational model of float values). -/
def trackToSegment (t : Track) : Segment :=
  { start := t.start, stop := t.stop, speaker := t.speaker }

/-- The result dictionary built at lines 67–71 of the source. -/
structure DiarizationResult where
  audio_file : String
  num_speakers : Nat
  segments : List Segment
deriving DecidableEq, Repr

/-- Lines 59–71: the segments list is the tracks mapped in emission order and
`num_speakers` is `len(set(seg['speaker'] for seg in segments))`, i.e. the
length of the deduplicated speaker-label list. -/
def buildResult (audio_file : String) (tracks : List Track) : DiarizationResult :=
  let segments := tracks.map trackToSegment
  { audio_file := audio_file
    num_speakers := (segments.map (fun s => s.speaker)).dedup.length
    segments := segments }

/-- Python truthiness of an optional int (`if min_speakers:`):
None and 0 are falsy, every other int truthy. -/
def intTruthy : Option Int → Bool
  | none => false
  | some n => decide (n ≠ 0)

/-- Python truthiness of an optional string (`if output_file:`):
None and the empty string are falsy. -/
def strTruthy : Option String → Bool
  | none => false
  | some s => decide (s ≠ "")

/-- The keyword dictionary `diarization_params` passed to the pipeline call:
a key is present exactly when the corresponding field is `some`. -/
structure DiarizationParams where
  min_speakers : Option Int
  max_speakers : Option Int
deriving DecidableEq, Repr

/-- Lines 50–54: each bound is added to `diarization_params` only when truthy. -/
def buildParams (min_speakers max_speakers : Option Int) : DiarizationParams :=
  { min_speakers := if intTruthy min_speakers then min_speakers else none
    max_speakers := if intTruthy max_speakers then max_speakers else none }

/-- What the external pipeline does on a given call: yield a list of tracks,
or raise an exception carrying a message. -/
inductive PipelineOutcome where
  | tracks (ts : List Track)
  | failure (msg : String)
deriving DecidableEq, Repr

/-- The environment a run executes in: whether the pyannote/torch import
succeeds, whether CUDA is available, which files exist, the abstract pipeline
behavior, and whether writing a given output path succeeds (with the exception
text raised when it does not). -/
structure Env where
  importOk : Bool
  cudaAvailable : Bool
  fileExists : String → Bool
  pipeline : String → DiarizationParams → PipelineOutcome
  writeOk : String → Bool
  writeFailMsg : String → String

/-! ### JSON serialization, mirroring Python json.dumps -/

/-- JSON values produced by this script: strings, pre-rendered numbers,
arrays and objects. -/
inductive Json where
  | jstr (s : String)
  | jnum (s : String)
  | jarr (xs : List Json)
  | jobj (kvs : List (String × Json))

/-- Lowercase hex digit, as in Python json \uXXXX escapes. -/
def hexDigitChar (n : Nat) : Char :=
  if n < 10 then Char.ofNat (48 + n) else Char.ofNat (87 + n % 16)

/-- Four lowercase hex digits. -/
def hex4 (n : Nat) : String :=
  String.mk [hexDigitChar (n / 4096 % 16), hexDigitChar (n / 256 % 16),
    hexDigitChar (n / 16 % 16), hexDigitChar (n % 16)]

/-- Escape one character as Python json.dumps does with the default
ensure_ascii=True: short escapes for the usual controls, \u00xx for other
controls, raw for printable ASCII, \uxxxx (with surrogate pairs above the
BMP) for everything else. -/
def escapeChar (c : Char) : String :=
  if c = Char.ofNat 34 then String.mk [Char.ofNat 92, Char.ofNat 34]
  else if c = Char.ofNat 92 then String.mk [Char.ofNat 92, Char.ofNat 92]
  else if c.toNat = 10 then String.mk [Char.ofNat 92, Char.ofNat 110]
  else if c.toNat = 9 then String.mk [Char.ofNat 92, Char.ofNat 116]
  else if c.toNat = 13 then String.mk [Char.ofNat 92, Char.ofNat 114]
  else if c.toNat = 8 then String.mk [Char.ofNat 92, Char.ofNat 98]
  else if c.toNat = 12 then String.mk [Char.ofNat 92, Char.ofNat 102]
  else if c.toNat < 32 then "\\u" ++ hex4 c.toNat
  else if c.toNat < 127 then String.singleton c
  else if c.toNat < 65536 then "\\u" ++ hex4 c.toNat
  else
    let m := c.toNat - 65536
    "\\u" ++ hex4 (55296 + m / 1024) ++ "\\u" ++ hex4 (56320 + m % 1024)

/-- Escape a whole string. -/
def escapeString (s : String) : String :=
  String.join (s.toList.map escapeChar)

/-- A JSON string literal: quotes around the escaped content. -/
def quoteJson (s : String) : String :=
  "\"" ++ escapeString s ++ "\""

mutual

/-- Compact serialization, as `json.dumps(result)` with Python default
separators: items joined by a comma and a space, keys followed by a colon
and a space. -/
def dumps : Json → String
  | .jstr s => quoteJson s
  | .jnum s => s
  | .jarr xs => "[" ++ dumpsArr xs ++ "]"
  | .jobj kvs => "\x7b" ++ dumpsObj kvs ++ "\x7d"

/-- Array items of the compact serialization. -/
def dumpsArr : List Json → String
  | [] => ""
  | [x] => dumps x
  | x :: y :: rest => dumps x ++ ", " ++ dumpsArr (y :: rest)

/-- Object entries of the compact serialization. -/
def dumpsObj : List (String × Json) → String
  | [] => ""
  | [kv] => quoteJson kv.1 ++ ": " ++ dumps kv.2
  | kv :: kv2 :: rest => quoteJson kv.1 ++ ": " ++ dumps kv.2 ++ ", " ++ dumpsObj (kv2 :: rest)

end

/-- An indentation pad of n spaces. -/
def pad (n : Nat) : String :=
  String.mk (List.replicate n (Char.ofNat 32))

mutual

/-- Pretty serialization, as `json.dump(result, f, indent=2)`: each container
item on its own line, nested indentation two spaces deeper, items separated
by a comma then a newline, keys followed by a colon and a space; empty
containers stay on one line. -/
def dumpsIndent (ind : Nat) : Json → String
  | .jstr s => quoteJson s
  | .jnum s => s
  | .jarr [] => "[]"
  | .jarr (x :: xs) =>
      "[\n" ++ dumpsIndentArr (ind + 2) (x :: xs) ++ "\n" ++ pad ind ++ "]"
  | .jobj [] => "\x7b\x7d"
  | .jobj (kv :: kvs) =>
      "\x7b\n" ++ dumpsIndentObj (ind + 2) (kv :: kvs) ++ "\n" ++ pad ind ++ "\x7d"

/-- Array items of the pretty serialization. -/
def dumpsIndentArr (ind : Nat) : List Json → String
  | [] => ""
  | [x] => pad ind ++ dumpsIndent ind x
  | x :: y :: rest =>
      pad ind ++ dumpsIndent ind x ++ ",\n" ++ dumpsIndentArr ind (y :: rest)

/-- Object entries of the pretty serialization. -/
def dumpsIndentObj (ind : Nat) : List (String × Json) → String
  | [] => ""
  | [kv] => pad ind ++ quoteJson kv.1 ++ ": " ++ dumpsIndent ind kv.2
  | kv :: kv2 :: rest =>
      pad ind ++ quoteJson kv.1 ++ ": " ++ dumpsIndent ind kv.2 ++ ",\n" ++
        dumpsIndentObj ind (kv2 :: rest)

end

/-- Decimal digits of the fractional part num/den by long division,
at most fuel digits, stopping when the remainder is exhausted. -/
def fracDigits : Nat → Nat → Nat → List Char
  | _, _, 0 => []
  | num, den, fuel + 1 =>
      if num = 0 then []
      else if den = 0 then []
      else Char.ofNat (48 + num * 10 / den % 10) :: fracDigits (num * 10 % den) den fuel

/-- Deterministic decimal rendering of a rational time value, standing for
the repr of the Python float (always with a decimal point, as float repr
has).  Both serializations use this same function. -/
def renderRat (q : ℚ) : String :=
  let sign := if q < 0 then "-" else ""
  let n := q.num.natAbs
  let d := q.den
  let frac := fracDigits (n % d) d 17
  sign ++ toString (n / d) ++ "." ++ (if frac.isEmpty then "0" else String.mk frac)

/-- The JSON tree of one segment record, keys in insertion order. -/
def segmentToJson (s : Segment) : Json :=
  .jobj [("start", .jnum (renderRat s.start)),
    ("end", .jnum (renderRat s.stop)),
    ("speaker", .jstr s.speaker)]

/-- The JSON tree of the result dictionary, keys in insertion order. -/
def resultToJson (r : DiarizationResult) : Json :=
  .jobj [("audio_file", .jstr r.audio_file),
    ("num_speakers", .jnum (toString r.num_speakers)),
    ("segments", .jarr (r.segments.map segmentToJson))]

/-! ### Python int() parsing of the optional speaker-count arguments -/

/-- Digits of a Python int literal after the first digit: decimal digits with
single underscores allowed only between digits. -/
def pyDigitsAux : List Char → Nat → Option Nat
  | [], acc => some acc
  | c :: rest, acc =>
      if c.isDigit then pyDigitsAux rest (acc * 10 + (c.toNat - 48))
      else if c.toNat = 95 then
        match rest with
        | d :: _ => if d.isDigit then pyDigitsAux rest acc else none
        | [] => none
      else none

/-- A nonempty digit string starting with a digit. -/
def pyDigitsStart : List Char → Option Nat
  | [] => none
  | c :: rest => if c.isDigit then pyDigitsAux rest (c.toNat - 48) else none

/-- The conversion `int(s)` on a string: strip surrounding whitespace, allow
one sign, then decimal digits with underscores between digits; `none` models
the ValueError Python raises on anything else. -/
def pyInt (s : String) : Option Int :=
  let cs := ((s.toList.dropWhile Char.isWhitespace).reverse.dropWhile
    Char.isWhitespace).reverse
  match cs with
  | [] => none
  | c :: rest =>
      if c = Char.ofNat 43 then (pyDigitsStart rest).map Int.ofNat
      else if c = Char.ofNat 45 then (pyDigitsStart rest).map (fun n => -(n : Int))
      else (pyDigitsStart cs).map Int.ofNat

/-! ### Run semantics -/

/-- How the process terminated: `normal c` is a plain `sys.exit(c)` or a
normal return (exit code c); `uncaught msg` is an uncaught exception, which
the interpreter reports as a traceback on stderr and turns into OS exit
status 1. -/
inductive ExitKind where
  | normal (code : Nat)
  | uncaught (msg : String)
deriving DecidableEq, Repr

/-- The OS exit status of an exit kind (an uncaught exception makes the
interpreter exit with status 1). -/
def exitCode : ExitKind → Nat
  | .normal c => c
  | .uncaught _ => 1

/-- Trace of one call to `diarize_audio`: the returned result (`none` when
the function called `sys.exit(1)` from its exception handler), the stderr
lines it printed, the file written (path and exact content), whether the
pipeline was invoked, the keyword parameters passed to it, and whether the
pipeline was moved to the CUDA device. -/
structure DiarizeOut where
  result : Option DiarizationResult
  stderr : List String
  fileWritten : Option (String × String)
  pipelineInvoked : Bool
  calledParams : Option DiarizationParams
  usedCuda : Bool
deriving Repr

/-- Lines 23–83 of the source: load the pipeline, move it to CUDA when
available (observable behavior of the abstract pipeline is unchanged), build
the truthiness-filtered parameter dictionary, run the pipeline, reshape its
tracks, optionally write the indent=2 JSON to the output file, and catch any
exception by printing a diarization-failed message and exiting with status 1. -/
def diarize_audio (env : Env) (audio_file : String) (output_file : Option String)
    (min_speakers max_speakers : Option Int) : DiarizeOut :=
  let params := buildParams min_speakers max_speakers
  let procMsg := "Processing: " ++ audio_file
  match env.pipeline audio_file params with
  | .failure msg =>
      { result := none
        stderr := [procMsg, "ERROR: Diarization failed: " ++ msg]
        fileWritten := none
        pipelineInvoked := true
        calledParams := some params
        usedCuda := env.cudaAvailable }
  | .tracks ts =>
      let result := buildResult audio_file ts
      if strTruthy output_file then
        let path := output_file.getD ""
        if env.writeOk path then
          { result := some result
            stderr := [procMsg, "Saved diarization to: " ++ path]
            fileWritten := some (path, dumpsIndent 0 (resultToJson result))
            pipelineInvoked := true
            calledParams := some params
            usedCuda := env.cudaAvailable }
        else
          { result := none
            stderr := [procMsg, "ERROR: Diarization failed: " ++ env.writeFailMsg path]
            fileWritten := none
            pipelineInvoked := true
            calledParams := some params
            usedCuda := env.cudaAvailable }
      else
        { result := some result
          stderr := [procMsg]
          fileWritten := none
          pipelineInvoked := true
          calledParams := some params
          usedCuda := env.cudaAvailable }

/-- Trace of one whole process run: exit kind, stderr lines in order, the
JSON document printed to stdout (if reached), the file written, whether the
existence check on the audio file ran, whether `diarize_audio` was called,
whether the pipeline was invoked, the parameters passed to it, the result
value the run produced, and whether CUDA was used. -/
structure RunResult where
  exit : ExitKind
  stderr : List String
  stdout : Option String
  fileWritten : Option (String × String)
  existenceChecked : Bool
  diarizeCalled : Bool
  pipelineInvoked : Bool
  calledParams : Option DiarizationParams
  result : Option DiarizationResult
  usedCuda : Bool
deriving Repr

/-- First usage line printed when arguments are missing. -/
def usageLine1 : String :=
  "Usage: diarize_speakers.py <audio_file> [output_json] [min_speakers] [max_speakers]"

/-- Second usage line printed when arguments are missing. -/
def usageLine2 : String :=
  "Example: diarize_speakers.py recording.mp3 diarization.json 2 4"

/-- Lines 94–95: `int(sys.argv[3])` then `int(sys.argv[4])`, each only when
that argument is present; a conversion failure is the ValueError Python
raises, carrying the offending literal. -/
def parseSpeakerArgs (argv : List String) : Except String (Option Int × Option Int) :=
  if argv.length > 3 then
    match pyInt (argv.getD 3 "") with
    | none => .error (argv.getD 3 "")
    | some mi =>
        if argv.length > 4 then
          match pyInt (argv.getD 4 "") with
          | none => .error (argv.getD 4 "")
          | some ma => .ok (some mi, some ma)
        else .ok (some mi, none)
  else .ok (none, none)

/-- The run outcome of an uncaught exception: interpreter prints a traceback
to stderr and exits with status 1; nothing else has happened. -/
def uncaughtRun (msg : String) : RunResult :=
  { exit := .uncaught msg
    stderr := ["Traceback (most recent call last):", msg]
    stdout := none
    fileWritten := none
    existenceChecked := false
    diarizeCalled := false
    pipelineInvoked := false
    calledParams := none
    result := none
    usedCuda := false }

/-- Lines 97–109: the existence check, the `diarize_audio` call, the summary
printed to stderr and the compact JSON printed to stdout. -/
def mainAfterParse (env : Env) (audio_file : String) (output_file : Option String)
    (min_speakers max_speakers : Option Int) : RunResult :=
  if env.fileExists audio_file then
    let d := diarize_audio env audio_file output_file min_speakers max_speakers
    match d.result with
    | none =>
        { exit := .normal 1
          stderr := d.stderr
          stdout := none
          fileWritten := d.fileWritten
          existenceChecked := true
          diarizeCalled := true
          pipelineInvoked := d.pipelineInvoked
          calledParams := d.calledParams
          result := none
          usedCuda := d.usedCuda }
    | some r =>
        { exit := .normal 0
          stderr := d.stderr ++ ["\nDiarization complete!",
            "Detected " ++ toString r.num_speakers ++ " speakers",
            "Total segments: " ++ toString r.segments.length]
          stdout := some (dumps (resultToJson r))
          fileWritten := d.fileWritten
          existenceChecked := true
          diarizeCalled := true
          pipelineInvoked := d.pipelineInvoked
          calledParams := d.calledParams
          result := some r
          usedCuda := d.usedCuda }
  else
    { exit := .normal 1
      stderr := ["ERROR: Audio file not found: " ++ audio_file]
      stdout := none
      fileWritten := none
      existenceChecked := true
      diarizeCalled := false
      pipelineInvoked := false
      calledParams := none
      result := none
      usedCuda := false }

/-- Lines 86–109: `main()`.  Fewer than two argv entries prints the usage to
stderr and exits 1; then the optional arguments are read, the speaker bounds
converted with `int()` (an invalid literal raises an uncaught ValueError
before the existence check), and control passes to the existence check and
the diarization call. -/
def main (env : Env) (argv : List String) : RunResult :=
  if argv.length < 2 then
    { exit := .normal 1
      stderr := [usageLine1, usageLine2]
      stdout := none
      fileWritten := none
      existenceChecked := false
      diarizeCalled := false
      pipelineInvoked := false
      calledParams := none
      result := none
      usedCuda := false }
  else
    let audio_file := argv.getD 1 ""
    let output_file := if argv.length > 2 then some (argv.getD 2 "") else none
    match parseSpeakerArgs argv with
    | .error s =>
        uncaughtRun ("ValueError: invalid literal for int() with base 10: " ++
          "\x27" ++ s ++ "\x27")
    | .ok (mi, ma) => mainAfterParse env audio_file output_file mi ma

/-- The whole script run: the module-level import guard (lines 15–20) prints
an error and exits 1 when pyannote.audio/torch are missing; otherwise `main`
runs. -/
def runScript (env : Env) (argv : List String) : RunResult :=
  if env.importOk then main env argv
  else
    { exit := .normal 1
      stderr := ["ERROR: pyannote.audio not installed. Run: pip install pyannote.audio torch"]
      stdout := none
      fileWritten := none
      existenceChecked := false
      diarizeCalled := false
      pipelineInvoked := false
      calledParams := none
      result := none
      usedCuda := false }

/-! ### Concrete test fixtures -/

/-- Three stub tracks with two distinct speaker labels. -/
def stubTracks : List Track :=
  [⟨0, 1, "SPEAKER_00"⟩, ⟨1, 2, "SPEAKER_01"⟩, ⟨2, 3, "SPEAKER_00"⟩]

/-- An environment where everything succeeds and the pipeline is a stub
yielding stubTracks. -/
def stubEnv : Env :=
  { importOk := true
    cudaAvailable := false
    fileExists := fun _ => true
    pipeline := fun _ _ => PipelineOutcome.tracks stubTracks
    writeOk := fun _ => true
    writeFailMsg := fun _ => "Permission denied" }

/-! ### Helper lemmas -/

/-- The speaker labels of the built segments are the tracks' labels. -/
lemma buildResult_segments_speakers (a : String) (ts : List Track) :
    ((buildResult a ts).segments.map (fun s => s.speaker)) =
      ts.map (fun t => t.speaker) := by
  show ((ts.map trackToSegment).map (fun s => s.speaker)) = ts.map (fun t => t.speaker)
  rw [List.map_map]
  rfl

/-- The num_speakers field counts distinct labels of the built segments. -/
lemma buildResult_num_speakers (a : String) (ts : List Track) :
    (buildResult a ts).num_speakers =
      ((buildResult a ts).segments.map (fun s => s.speaker)).toFinset.card := by
  simp [buildResult, List.card_toFinset]

/-- Whenever diarize_audio returns a result, the pipeline yielded some track
list and the result is buildResult of it. -/
lemma diarize_audio_result_eq (env : Env) (a : String) (out : Option String)
    (mi ma : Option Int) (r : DiarizationResult)
    (h : (diarize_audio env a out mi ma).result = some r) :
    ∃ ts, env.pipeline a (buildParams mi ma) = PipelineOutcome.tracks ts ∧
      r = buildResult a ts := by
  cases hp : env.pipeline a (buildParams mi ma) with
  | failure msg => simp [diarize_audio, hp] at h
  | tracks ts =>
    refine ⟨ts, rfl, ?_⟩
    by_cases ho : strTruthy out = true <;>
      by_cases hw : env.writeOk (out.getD "") = true <;>
        simp [diarize_audio, hp, ho, hw] at h <;> exact h.symm

/-- Whenever diarize_audio returns a result and wrote a file, the file content
is the indent=2 serialization of that same result. -/
lemma diarize_audio_fileWritten_eq (env : Env) (a : String) (out : Option String)
    (mi ma : Option Int) (r : DiarizationResult) (p c : String)
    (hr : (diarize_audio env a out mi ma).result = some r)
    (hf : (diarize_audio env a out mi ma).fileWritten = some (p, c)) :
    c = dumpsIndent 0 (resultToJson r) := by
  cases hp : env.pipeline a (buildParams mi ma) with
  | failure msg => simp [diarize_audio, hp] at hr
  | tracks ts =>
    by_cases ho : strTruthy out = true <;>
      by_cases hw : env.writeOk (out.getD "") = true <;>
        simp [diarize_audio, hp, ho, hw] at hr hf
    obtain ⟨-, hc⟩ := hf
    rw [← hc, ← hr]

/-- The parameter dictionary always passed to the pipeline call. -/
lemma diarize_audio_calledParams (env : Env) (a : String) (out : Option String)
    (mi ma : Option Int) :
    (diarize_audio env a out mi ma).calledParams = some (buildParams mi ma) := by
  cases hp : env.pipeline a (buildParams mi ma) with
  | failure msg => simp [diarize_audio, hp]
  | tracks ts =>
    by_cases ho : strTruthy out = true <;>
      by_cases hw : env.writeOk (out.getD "") = true <;>
        simp [diarize_audio, hp, ho, hw]

/-- When imports succeed the script is just main. -/
lemma runScript_importOk (env : Env) (argv : List String)
    (h : env.importOk = true) : runScript env argv = main env argv := by
  simp [runScript, h]

/-- main under a successful argument parse. -/
lemma main_parse_ok (env : Env) (argv : List String) (mi ma : Option Int)
    (h2 : 2 ≤ argv.length)
    (hparse : parseSpeakerArgs argv = Except.ok (mi, ma)) :
    main env argv = mainAfterParse env (argv.getD 1 "")
      (if argv.length > 2 then some (argv.getD 2 "") else none) mi ma := by
  unfold main
  rw [if_neg (by omega), hparse]

/-- A bad third or fourth argument makes the int conversion fail. -/
lemma parseSpeakerArgs_error_of_bad (argv : List String)
    (hbad : (3 < argv.length ∧ pyInt (argv.getD 3 "") = none) ∨
            (4 < argv.length ∧ pyInt (argv.getD 4 "") = none)) :
    ∃ s, parseSpeakerArgs argv = Except.error s := by
  rcases hbad with ⟨h3, hp3⟩ | ⟨h4, hp4⟩
  · refine ⟨argv.getD 3 "", ?_⟩
    unfold parseSpeakerArgs
    rw [if_pos h3, hp3]
  · have h3 : 3 < argv.length := by omega
    cases hp3 : pyInt (argv.getD 3 "") with
    | none =>
        refine ⟨argv.getD 3 "", ?_⟩
        unfold parseSpeakerArgs
        rw [if_pos h3, hp3]
    | some mi0 =>
        refine ⟨argv.getD 4 "", ?_⟩
        unfold parseSpeakerArgs
        rw [if_pos h3, hp3]
        dsimp only
        rw [if_pos h4, hp4]

/-- A pipeline exception makes diarize_audio exit through its handler with a
stderr message and no returned result. -/
lemma diarize_audio_failure_result (env : Env) (a : String) (out : Option String)
    (mi ma : Option Int) (msg : String)
    (hp : env.pipeline a (buildParams mi ma) = PipelineOutcome.failure msg) :
    (diarize_audio env a out mi ma).result = none ∧
    (diarize_audio env a out mi ma).stderr ≠ [] := by
  simp [diarize_audio, hp]

/-- With tracks from the pipeline and a successful (or absent) file write,
diarize_audio returns the built result. -/
lemma diarize_audio_tracks_result (env : Env) (a : String) (out : Option String)
    (mi ma : Option Int) (ts : List Track)
    (hp : env.pipeline a (buildParams mi ma) = PipelineOutcome.tracks ts)
    (hw : strTruthy out = true → env.writeOk (out.getD "") = true) :
    (diarize_audio env a out mi ma).result = some (buildResult a ts) := by
  by_cases ho : strTruthy out = true
  · simp [diarize_audio, hp, ho, hw ho]
  · simp [diarize_audio, hp, ho]

/-- A failing write to a truthy output path is caught by the same handler as
pipeline failures: no result, the diarization-failed message, no file. -/
lemma diarize_audio_write_fail (env : Env) (a : String) (mi ma : Option Int)
    (ts : List Track) (p : String)
    (hp : env.pipeline a (buildParams mi ma) = PipelineOutcome.tracks ts)
    (hne : p ≠ "") (hw : env.writeOk p = false) :
    (diarize_audio env a (some p) mi ma).result = none ∧
    (diarize_audio env a (some p) mi ma).stderr =
      ["Processing: " ++ a, "ERROR: Diarization failed: " ++ env.writeFailMsg p] ∧
    (diarize_audio env a (some p) mi ma).fileWritten = none ∧
    (diarize_audio env a (some p) mi ma).pipelineInvoked = true := by
  have hst : strTruthy (some p) = true := by simp [strTruthy, hne]
  simp [diarize_audio, hp, hst, hw]

/-- The CUDA flag reaches only the usedCuda trace field of diarize_audio. -/
lemma diarize_audio_cuda (env : Env) (b : Bool) (a : String) (out : Option String)
    (mi ma : Option Int) :
    diarize_audio { env with cudaAvailable := b } a out mi ma =
      { diarize_audio env a out mi ma with usedCuda := b } := by
  cases hp : env.pipeline a (buildParams mi ma) with
  | failure msg => simp [diarize_audio, hp]
  | tracks ts =>
      by_cases ho : strTruthy out = true <;>
        by_cases hw : env.writeOk (out.getD "") = true <;>
          simp [diarize_audio, hp, ho, hw]

/-- The CUDA flag reaches only the usedCuda trace field of mainAfterParse. -/
lemma mainAfterParse_cuda (env : Env) (b : Bool) (a : String)
    (out : Option String) (mi ma : Option Int) :
    ∃ u, mainAfterParse { env with cudaAvailable := b } a out mi ma =
      { mainAfterParse env a out mi ma with usedCuda := u } := by
  unfold mainAfterParse
  rw [diarize_audio_cuda env b a out mi ma]
  have hfe : ({ env with cudaAvailable := b } : Env).fileExists = env.fileExists := rfl
  rw [hfe]
  by_cases hex : env.fileExists a = true
  · rw [if_pos hex, if_pos hex]
    dsimp only
    cases (diarize_audio env a out mi ma).result with
    | none => exact ⟨b, rfl⟩
    | some r => exact ⟨b, rfl⟩
  · rw [if_neg hex, if_neg hex]
    exact ⟨false, rfl⟩

/-- The CUDA flag reaches only the usedCuda trace field of main. -/
lemma main_cuda (env : Env) (b : Bool) (argv : List String) :
    ∃ u, main { env with cudaAvailable := b } argv =
      { main env argv with usedCuda := u } := by
  unfold main
  by_cases h2 : argv.length < 2
  · rw [if_pos h2, if_pos h2]
    exact ⟨false, rfl⟩
  · rw [if_neg h2, if_neg h2]
    cases parseSpeakerArgs argv with
    | error s => exact ⟨false, rfl⟩
    | ok p =>
        obtain ⟨mi, ma⟩ := p
        exact mainAfterParse_cuda env b (argv.getD 1 "")
          (if argv.length > 2 then some (argv.getD 2 "") else none) mi ma

/-- The CUDA flag reaches only the usedCuda trace field of the whole run. -/
lemma runScript_cuda (env : Env) (b : Bool) (argv : List String) :
    ∃ u, runScript { env with cudaAvailable := b } argv =
      { runScript env argv with usedCuda := u } := by
  unfold runScript
  have himp : ({ env with cudaAvailable := b } : Env).importOk = env.importOk := rfl
  rw [himp]
  by_cases h : env.importOk = true
  · rw [if_pos h, if_pos h]
    exact main_cuda env b argv
  · rw [if_neg h, if_neg h]
    exact ⟨false, rfl⟩

/-- mainAfterParse when diarize_audio exited through its handler. -/
lemma mainAfterParse_result_none (env : Env) (a : String) (out : Option String)
    (mi ma : Option Int) (hex : env.fileExists a = true)
    (hd : (diarize_audio env a out mi ma).result = none) :
    mainAfterParse env a out mi ma =
      { exit := ExitKind.normal 1
        stderr := (diarize_audio env a out mi ma).stderr
        stdout := none
        fileWritten := (diarize_audio env a out mi ma).fileWritten
        existenceChecked := true
        diarizeCalled := true
        pipelineInvoked := (diarize_audio env a out mi ma).pipelineInvoked
        calledParams := (diarize_audio env a out mi ma).calledParams
        result := none
        usedCuda := (diarize_audio env a out mi ma).usedCuda } := by
  unfold mainAfterParse
  rw [if_pos hex]
  dsimp only
  rw [hd]

/-- mainAfterParse when diarize_audio returned a result. -/
lemma mainAfterParse_result_some (env : Env) (a : String) (out : Option String)
    (mi ma : Option Int) (r : DiarizationResult) (hex : env.fileExists a = true)
    (hd : (diarize_audio env a out mi ma).result = some r) :
    mainAfterParse env a out mi ma =
      { exit := ExitKind.normal 0
        stderr := (diarize_audio env a out mi ma).stderr ++
          ["\nDiarization complete!",
            "Detected " ++ toString r.num_speakers ++ " speakers",
            "Total segments: " ++ toString r.segments.length]
        stdout := some (dumps (resultToJson r))
        fileWritten := (diarize_audio env a out mi ma).fileWritten
        existenceChecked := true
        diarizeCalled := true
        pipelineInvoked := (diarize_audio env a out mi ma).pipelineInvoked
        calledParams := (diarize_audio env a out mi ma).calledParams
        result := some r
        usedCuda := (diarize_audio env a out mi ma).usedCuda } := by
  unfold mainAfterParse
  rw [if_pos hex]
  dsimp only
  rw [hd]

/-! ### Claim theorems -/

/-- Claim C1: every result returned by diarize_audio has num_speakers equal to
the number of distinct speaker labels among its segments, and, when the
pipeline yielded a known track list, equal to the number of distinct labels
among those tracks. -/
theorem num_speakers_counts_distinct_labels (env : Env) (a : String)
    (out : Option String) (mi ma : Option Int) (r : DiarizationResult)
    (h : (diarize_audio env a out mi ma).result = some r) :
    r.num_speakers = (r.segments.map (fun s => s.speaker)).toFinset.card ∧
    ∀ ts, env.pipeline a (buildParams mi ma) = PipelineOutcome.tracks ts →
      r.num_speakers = (ts.map (fun t => t.speaker)).toFinset.card := by
  obtain ⟨ts, hp, hr⟩ := diarize_audio_result_eq env a out mi ma r h
  subst hr
  constructor
  · exact buildResult_num_speakers a ts
  · intro ts2 hp2
    rw [hp] at hp2
    cases hp2
    rw [buildResult_num_speakers, buildResult_segments_speakers]

/-- Claim C1 witness: a concrete stub pipeline with three tracks and two
distinct labels. -/
theorem num_speakers_counts_distinct_labels_witness :
    (diarize_audio stubEnv "a.wav" none none none).result =
        some (buildResult "a.wav" stubTracks) ∧
    (buildResult "a.wav" stubTracks).num_speakers =
      ((buildResult "a.wav" stubTracks).segments.map
        (fun s => s.speaker)).toFinset.card :=
  ⟨rfl, (num_speakers_counts_distinct_labels stubEnv "a.wav" none none none
    (buildResult "a.wav" stubTracks) rfl).1⟩

/-- Claim C10: every result constructed by diarize_audio has num_speakers at
most the number of segments, and num_speakers is zero exactly when the
segments list is empty. -/
theorem num_speakers_invariant (env : Env) (a : String) (out : Option String)
    (mi ma : Option Int) (r : DiarizationResult)
    (h : (diarize_audio env a out mi ma).result = some r) :
    r.num_speakers ≤ r.segments.length ∧
    (r.num_speakers = 0 ↔ r.segments = []) := by
  obtain ⟨ts, hp, hr⟩ := diarize_audio_result_eq env a out mi ma r h
  subst hr
  constructor
  · calc (buildResult a ts).num_speakers
        = (((buildResult a ts).segments.map (fun s => s.speaker)).dedup).length := rfl
      _ ≤ ((buildResult a ts).segments.map (fun s => s.speaker)).length :=
          (List.dedup_sublist _).length_le
      _ = (buildResult a ts).segments.length := by simp
  · show (((buildResult a ts).segments.map (fun s => s.speaker)).dedup).length = 0 ↔ _
    rw [List.length_eq_zero, List.dedup_eq_nil, List.map_eq_nil_iff]

/-- Claim C10 witness: the invariant at the concrete stub result. -/
theorem num_speakers_invariant_witness :
    (buildResult "a.wav" stubTracks).num_speakers ≤
      (buildResult "a.wav" stubTracks).segments.length ∧
    ((buildResult "a.wav" stubTracks).num_speakers = 0 ↔
      (buildResult "a.wav" stubTracks).segments = []) :=
  num_speakers_invariant stubEnv "a.wav" none none none
    (buildResult "a.wav" stubTracks) rfl

/-- Claim C5: the segments of a returned result are exactly the pipeline
tracks, one segment per track, in the pipeline emission order, with no
reordering, insertion or removal. -/
theorem segments_preserve_emission_order (env : Env) (a : String)
    (out : Option String) (mi ma : Option Int) (r : DiarizationResult)
    (ts : List Track)
    (hp : env.pipeline a (buildParams mi ma) = PipelineOutcome.tracks ts)
    (h : (diarize_audio env a out mi ma).result = some r) :
    r.segments = ts.map trackToSegment ∧
    r.segments.length = ts.length ∧
    ∀ i : Nat, r.segments[i]? = (ts[i]?).map trackToSegment := by
  obtain ⟨ts0, hp0, hr⟩ := diarize_audio_result_eq env a out mi ma r h
  rw [hp] at hp0
  cases hp0
  subst hr
  refine ⟨rfl, by simp [buildResult], fun i => ?_⟩
  show (ts.map trackToSegment)[i]? = (ts[i]?).map trackToSegment
  simp

/-- Claim C5 witness: emission order preserved on the concrete stub tracks. -/
theorem segments_preserve_emission_order_witness :
    (buildResult "a.wav" stubTracks).segments = stubTracks.map trackToSegment ∧
    (buildResult "a.wav" stubTracks).segments.length = stubTracks.length ∧
    ∀ i : Nat, (buildResult "a.wav" stubTracks).segments[i]? =
      (stubTracks[i]?).map trackToSegment :=
  segments_preserve_emission_order stubEnv "a.wav" none none none
    (buildResult "a.wav" stubTracks) stubTracks rfl rfl

/-- Claim C4: the pipeline call always receives exactly the
truthiness-filtered parameter dictionary, and a bound appears in it exactly
when the argument was provided as a nonzero integer: zero or None is treated
as absent, leaving the pipeline to choose. -/
theorem speaker_bounds_forwarded_only_when_truthy (env : Env) (a : String)
    (out : Option String) (mi ma : Option Int) :
    (diarize_audio env a out mi ma).calledParams = some (buildParams mi ma) ∧
    (∀ n : Int, (buildParams mi ma).min_speakers = some n ↔ (mi = some n ∧ n ≠ 0)) ∧
    (∀ n : Int, (buildParams mi ma).max_speakers = some n ↔ (ma = some n ∧ n ≠ 0)) := by
  refine ⟨diarize_audio_calledParams env a out mi ma, fun n => ?_, fun n => ?_⟩
  · cases mi with
    | none => simp [buildParams, intTruthy]
    | some m =>
      by_cases hm : m = 0 <;> simp [buildParams, intTruthy, hm] <;> omega
  · cases ma with
    | none => simp [buildParams, intTruthy]
    | some m =>
      by_cases hm : m = 0 <;> simp [buildParams, intTruthy, hm] <;> omega

/-- An environment like stubEnv but where no file exists. -/
def noFileEnv : Env :=
  { stubEnv with fileExists := fun _ => false }

/-- Claim C3: when the audio file does not exist the run exits with status 1
after printing to stderr, and neither diarize_audio nor the pipeline is ever
invoked. -/
theorem missing_file_exits_without_pipeline (env : Env) (argv : List String)
    (h2 : 2 ≤ argv.length)
    (hne : env.fileExists (argv.getD 1 "") = false) :
    exitCode (runScript env argv).exit = 1 ∧
    (runScript env argv).stderr ≠ [] ∧
    (runScript env argv).diarizeCalled = false ∧
    (runScript env argv).pipelineInvoked = false := by
  by_cases himp : env.importOk = true
  · rw [runScript_importOk env argv himp]
    cases hp : parseSpeakerArgs argv with
    | error s =>
        unfold main
        rw [if_neg (by omega), hp]
        simp [uncaughtRun, exitCode]
    | ok p =>
        obtain ⟨mi, ma⟩ := p
        rw [main_parse_ok env argv mi ma h2 hp]
        unfold mainAfterParse
        rw [if_neg (by rw [hne]; simp)]
        simp [exitCode]
  · have himp2 : env.importOk = false := by simpa using himp
    simp [runScript, himp2, exitCode]

/-- Claim C3 witness: a concrete run on a missing file. -/
theorem missing_file_exits_without_pipeline_witness :
    exitCode (runScript noFileEnv ["prog", "missing.wav"]).exit = 1 ∧
    (runScript noFileEnv ["prog", "missing.wav"]).stderr ≠ [] ∧
    (runScript noFileEnv ["prog", "missing.wav"]).diarizeCalled = false ∧
    (runScript noFileEnv ["prog", "missing.wav"]).pipelineInvoked = false :=
  missing_file_exits_without_pipeline noFileEnv ["prog", "missing.wav"]
    (by decide) rfl

/-- Claim C8: an invalid integer literal as third or fourth argument raises an
uncaught ValueError: the run terminates before the existence check and before
any pipeline invocation, outside the stderr-message-then-exit handlers. -/
theorem invalid_int_arg_uncaught (env : Env) (argv : List String)
    (himp : env.importOk = true)
    (hbad : (3 < argv.length ∧ pyInt (argv.getD 3 "") = none) ∨
            (4 < argv.length ∧ pyInt (argv.getD 4 "") = none)) :
    (∃ m, (runScript env argv).exit = ExitKind.uncaught m) ∧
    (runScript env argv).existenceChecked = false ∧
    (runScript env argv).diarizeCalled = false ∧
    (runScript env argv).pipelineInvoked = false := by
  obtain ⟨s, hs⟩ := parseSpeakerArgs_error_of_bad argv hbad
  have h2 : ¬ (argv.length < 2) := by rcases hbad with ⟨h, -⟩ | ⟨h, -⟩ <;> omega
  rw [runScript_importOk env argv himp]
  unfold main
  rw [if_neg h2, hs]
  simp [uncaughtRun]

/-- Claim C8 witness: a concrete run with a non-integer third argument and an
existing audio file. -/
theorem invalid_int_arg_uncaught_witness :
    (∃ m, (runScript stubEnv ["prog", "a.wav", "out.json", "two"]).exit =
      ExitKind.uncaught m) ∧
    (runScript stubEnv ["prog", "a.wav", "out.json", "two"]).existenceChecked = false ∧
    (runScript stubEnv ["prog", "a.wav", "out.json", "two"]).diarizeCalled = false ∧
    (runScript stubEnv ["prog", "a.wav", "out.json", "two"]).pipelineInvoked = false :=
  invalid_int_arg_uncaught stubEnv ["prog", "a.wav", "out.json", "two"] rfl
    (Or.inl ⟨by decide, by decide⟩)

/-- An environment like stubEnv but where every file write fails. -/
def failWriteEnv : Env :=
  { stubEnv with writeOk := fun _ => false }

/-- Claim C6: exit status 1 with a stderr message on missing arguments,
missing input file, import failure, or a pipeline exception; exit status 0 on
success. -/
theorem exit_status_contract (env : Env) (argv : List String) :
    (env.importOk = false →
      (runScript env argv).exit = ExitKind.normal 1 ∧
      (runScript env argv).stderr ≠ []) ∧
    (env.importOk = true → argv.length < 2 →
      (runScript env argv).exit = ExitKind.normal 1 ∧
      (runScript env argv).stderr ≠ []) ∧
    (∀ mi ma : Option Int, env.importOk = true → 2 ≤ argv.length →
      parseSpeakerArgs argv = Except.ok (mi, ma) →
      env.fileExists (argv.getD 1 "") = false →
      (runScript env argv).exit = ExitKind.normal 1 ∧
      (runScript env argv).stderr ≠ []) ∧
    (∀ (mi ma : Option Int) (msg : String), env.importOk = true →
      2 ≤ argv.length →
      parseSpeakerArgs argv = Except.ok (mi, ma) →
      env.fileExists (argv.getD 1 "") = true →
      env.pipeline (argv.getD 1 "") (buildParams mi ma) = PipelineOutcome.failure msg →
      (runScript env argv).exit = ExitKind.normal 1 ∧
      (runScript env argv).stderr ≠ []) ∧
    (∀ (mi ma : Option Int) (ts : List Track), env.importOk = true →
      2 ≤ argv.length →
      parseSpeakerArgs argv = Except.ok (mi, ma) →
      env.fileExists (argv.getD 1 "") = true →
      env.pipeline (argv.getD 1 "") (buildParams mi ma) = PipelineOutcome.tracks ts →
      (argv.length > 2 → argv.getD 2 "" ≠ "" → env.writeOk (argv.getD 2 "") = true) →
      (runScript env argv).exit = ExitKind.normal 0) := by
  refine ⟨?_, ?_, ?_, ?_, ?_⟩
  · intro h0
    simp [runScript, h0]
  · intro himp h2
    rw [runScript_importOk env argv himp]
    unfold main
    rw [if_pos h2]
    simp
  · intro mi ma himp h2 hparse hne
    rw [runScript_importOk env argv himp, main_parse_ok env argv mi ma h2 hparse]
    unfold mainAfterParse
    rw [if_neg (by rw [hne]; simp)]
    simp
  · intro mi ma msg himp h2 hparse hex hpipe
    rw [runScript_importOk env argv himp, main_parse_ok env argv mi ma h2 hparse]
    unfold mainAfterParse
    rw [if_pos hex]
    dsimp only
    rw [(diarize_audio_failure_result env (argv.getD 1 "")
      (if argv.length > 2 then some (argv.getD 2 "") else none) mi ma msg hpipe).1]
    exact ⟨rfl, (diarize_audio_failure_result env (argv.getD 1 "")
      (if argv.length > 2 then some (argv.getD 2 "") else none) mi ma msg hpipe).2⟩
  · intro mi ma ts himp h2 hparse hex hpipe hwc
    rw [runScript_importOk env argv himp, main_parse_ok env argv mi ma h2 hparse]
    unfold mainAfterParse
    have hw : strTruthy (if argv.length > 2 then some (argv.getD 2 "") else none) = true →
        env.writeOk ((if argv.length > 2 then some (argv.getD 2 "") else none).getD "") = true := by
      intro ho
      by_cases hl : argv.length > 2
      · rw [if_pos hl] at ho ⊢
        simp only [Option.getD_some]
        simp only [strTruthy, decide_eq_true_eq] at ho
        exact hwc hl ho
      · rw [if_neg hl] at ho
        simp [strTruthy] at ho
    rw [if_pos hex]
    dsimp only
    rw [diarize_audio_tracks_result env (argv.getD 1 "")
      (if argv.length > 2 then some (argv.getD 2 "") else none) mi ma ts hpipe hw]

/-- Claim C6 witness: a concrete fully successful run exits 0. -/
theorem exit_status_contract_witness :
    (runScript stubEnv ["prog", "a.wav", "out.json"]).exit = ExitKind.normal 0 :=
  (exit_status_contract stubEnv ["prog", "a.wav", "out.json"]).2.2.2.2
    none none stubTracks rfl (by decide) rfl rfl rfl (fun _ _ => rfl)

/-- Claim C2: on every successful run the compact JSON of the result value is
printed to stdout, and whatever file was written holds the indent=2 JSON of
that same result value. -/
theorem stdout_and_file_serialize_same_result (env : Env) (argv : List String)
    (h : (runScript env argv).exit = ExitKind.normal 0) :
    ∃ r, (runScript env argv).result = some r ∧
      (runScript env argv).stdout = some (dumps (resultToJson r)) ∧
      ∀ p c, (runScript env argv).fileWritten = some (p, c) →
        c = dumpsIndent 0 (resultToJson r) := by
  by_cases himp : env.importOk = true
  · rw [runScript_importOk env argv himp] at h ⊢
    by_cases h2 : argv.length < 2
    · unfold main at h
      rw [if_pos h2] at h
      simp at h
    · cases hp : parseSpeakerArgs argv with
      | error s =>
          unfold main at h
          rw [if_neg h2, hp] at h
          simp [uncaughtRun] at h
      | ok p =>
          obtain ⟨mi, ma⟩ := p
          rw [main_parse_ok env argv mi ma (by omega) hp] at h ⊢
          by_cases hex : env.fileExists (argv.getD 1 "") = true
          · cases hd : (diarize_audio env (argv.getD 1 "")
                (if argv.length > 2 then some (argv.getD 2 "") else none) mi ma).result with
            | none =>
                rw [mainAfterParse_result_none env (argv.getD 1 "")
                  (if argv.length > 2 then some (argv.getD 2 "") else none)
                  mi ma hex hd] at h
                simp at h
            | some r =>
                rw [mainAfterParse_result_some env (argv.getD 1 "")
                  (if argv.length > 2 then some (argv.getD 2 "") else none)
                  mi ma r hex hd] at h ⊢
                refine ⟨r, rfl, rfl, fun p c hf => ?_⟩
                exact diarize_audio_fileWritten_eq env (argv.getD 1 "")
                  (if argv.length > 2 then some (argv.getD 2 "") else none)
                  mi ma r p c hd hf
          · unfold mainAfterParse at h
            rw [if_neg hex] at h
            simp at h
  · have h0 : env.importOk = false := by simpa using himp
    simp [runScript, h0] at h

/-- Claim C2 witness: the concrete successful run with an output path. -/
theorem stdout_and_file_serialize_same_result_witness :
    ∃ r, (runScript stubEnv ["prog", "a.wav", "out.json"]).result = some r ∧
      (runScript stubEnv ["prog", "a.wav", "out.json"]).stdout =
        some (dumps (resultToJson r)) ∧
      ∀ p c, (runScript stubEnv ["prog", "a.wav", "out.json"]).fileWritten =
          some (p, c) → c = dumpsIndent 0 (resultToJson r) :=
  stdout_and_file_serialize_same_result stubEnv ["prog", "a.wav", "out.json"] rfl

/-- Claim C9: a failed output-file write is caught by the diarization-failure
handler: exit status 1, the diarization-failed stderr message, no JSON on
stdout and no file content, although the pipeline ran and yielded tracks. -/
theorem write_failure_reported_as_diarization_failure (env : Env)
    (argv : List String) (mi ma : Option Int) (ts : List Track)
    (himp : env.importOk = true)
    (hlen : 2 < argv.length)
    (hout : argv.getD 2 "" ≠ "")
    (hparse : parseSpeakerArgs argv = Except.ok (mi, ma))
    (hex : env.fileExists (argv.getD 1 "") = true)
    (hpipe : env.pipeline (argv.getD 1 "") (buildParams mi ma) = PipelineOutcome.tracks ts)
    (hw : env.writeOk (argv.getD 2 "") = false) :
    (runScript env argv).exit = ExitKind.normal 1 ∧
    (runScript env argv).stdout = none ∧
    ("ERROR: Diarization failed: " ++ env.writeFailMsg (argv.getD 2 "")) ∈
      (runScript env argv).stderr ∧
    (runScript env argv).pipelineInvoked = true ∧
    (runScript env argv).fileWritten = none := by
  rw [runScript_importOk env argv himp,
    main_parse_ok env argv mi ma (by omega) hparse]
  unfold mainAfterParse
  rw [if_pos hex, if_pos hlen]
  dsimp only
  obtain ⟨hres, hstderr, hfile, hinv⟩ :=
    diarize_audio_write_fail env (argv.getD 1 "") mi ma ts (argv.getD 2 "")
      hpipe hout hw
  rw [hres]
  refine ⟨rfl, rfl, ?_, ?_, ?_⟩
  · rw [hstderr]
    simp
  · exact hinv
  · exact hfile

/-- Claim C9 witness: concrete run whose only failure is the file write. -/
theorem write_failure_reported_as_diarization_failure_witness :
    (runScript failWriteEnv ["prog", "a.wav", "out.json"]).exit = ExitKind.normal 1 ∧
    (runScript failWriteEnv ["prog", "a.wav", "out.json"]).stdout = none ∧
    ("ERROR: Diarization failed: " ++ failWriteEnv.writeFailMsg
        (["prog", "a.wav", "out.json"].getD 2 "")) ∈
      (runScript failWriteEnv ["prog", "a.wav", "out.json"]).stderr ∧
    (runScript failWriteEnv ["prog", "a.wav", "out.json"]).pipelineInvoked = true ∧
    (runScript failWriteEnv ["prog", "a.wav", "out.json"]).fileWritten = none :=
  write_failure_reported_as_diarization_failure failWriteEnv
    ["prog", "a.wav", "out.json"] none none stubTracks rfl (by decide)
    (by decide) rfl rfl rfl rfl

/-- Claim C7: the CUDA-availability choice never affects the observable
outcome of a run — exit kind, stdout JSON, file written, result value and
stderr are identical with and without an accelerator. -/
theorem cuda_device_does_not_affect_output (env : Env) (argv : List String)
    (b1 b2 : Bool) :
    (runScript { env with cudaAvailable := b1 } argv).exit =
      (runScript { env with cudaAvailable := b2 } argv).exit ∧
    (runScript { env with cudaAvailable := b1 } argv).stdout =
      (runScript { env with cudaAvailable := b2 } argv).stdout ∧
    (runScript { env with cudaAvailable := b1 } argv).fileWritten =
      (runScript { env with cudaAvailable := b2 } argv).fileWritten ∧
    (runScript { env with cudaAvailable := b1 } argv).result =
      (runScript { env with cudaAvailable := b2 } argv).result ∧
    (runScript { env with cudaAvailable := b1 } argv).stderr =
      (runScript { env with cudaAvailable := b2 } argv).stderr := by
  obtain ⟨u1, h1⟩ := runScript_cuda env b1 argv
  obtain ⟨u2, h2⟩ := runScript_cuda env b2 argv
  rw [h1, h2]
  exact ⟨rfl, rfl, rfl, rfl, rfl⟩

end Diarize
